import Mathlib

/-!
Shallow embedding of `src/serial.rs` from the stm32f1xx-hal repository
(USART serial driver with optional DMA path).

Registers are modelled as structures of named bitfields plus an `others`
component standing for the remaining bits of the 32-bit word.  svd2rust
`reg.write(..)` starts from the register's reset value (all zero here) and
applies the given field settings; `reg.modify(..)` preserves all fields not
mentioned.  Volatile register accesses performed by the read/write/flush
paths are recorded in an access trace so that claims about which registers
are touched (and in what order) can be stated.
-/

namespace Stm32Serial

/-- Status register SR of the USART, one Bool per flag read by the driver. -/
structure SR where
  pe : Bool
  fe : Bool
  ne : Bool
  ore : Bool
  rxne : Bool
  txe : Bool
  tc : Bool
  idle : Bool
deriving Repr, DecidableEq

/-- Control register CR1: the fields the driver touches, plus the remaining
bits of the word collected in `others`. -/
structure CR1 where
  ue : Bool
  re : Bool
  te : Bool
  m : Bool
  ps : Bool
  pce : Bool
  rxneie : Bool
  txeie : Bool
  idleie : Bool
  others : Nat
deriving Repr, DecidableEq

/-- Control register CR2: the two-bit STOP field plus the remaining bits. -/
structure CR2 where
  stop : Nat
  others : Nat
deriving Repr, DecidableEq

/-- Control register CR3: the DMA request enables plus the remaining bits. -/
structure CR3 where
  dmar : Bool
  dmat : Bool
  others : Nat
deriving Repr, DecidableEq

/-- Reset value of CR3 (all bits zero), the base of a svd2rust `write`. -/
def CR3.reset : CR3 := { dmar := false, dmat := false, others := 0 }

/-- Reset value of CR1 (all bits zero). -/
def CR1.reset : CR1 :=
  { ue := false, re := false, te := false, m := false, ps := false
    pce := false, rxneie := false, txeie := false, idleie := false, others := 0 }

/-- Reset value of CR2 (all bits zero). -/
def CR2.reset : CR2 := { stop := 0, others := 0 }

/-- Reset value of SR. -/
def SR.reset : SR :=
  { pe := false, fe := false, ne := false, ore := false
    rxne := false, txe := false, tc := false, idle := false }

/-- The USART register block as seen by `serial.rs`. -/
structure UsartRegs where
  sr : SR
  dr : Nat
  brr : Nat
  cr1 : CR1
  cr2 : CR2
  cr3 : CR3
deriving Repr, DecidableEq

/-- Register state after the RCC peripheral reset performed by `init`. -/
def UsartRegs.reset : UsartRegs :=
  { sr := SR.reset, dr := 0, brr := 0
    cr1 := CR1.reset, cr2 := CR2.reset, cr3 := CR3.reset }

/-- One volatile access to a USART register, as issued by the byte-level
read/write/flush paths. -/
inductive Access where
  | readSR : Access
  | readDR : Access
  | writeDR : Nat → Access
deriving Repr, DecidableEq

/-- The `nb::Result` type: `ok` (`Ok`), `wouldBlock` (`Err(WouldBlock)`) or
`error` (`Err(Other e)`). -/
inductive NbResult (α : Type) (ε : Type) where
  | ok : α → NbResult α ε
  | wouldBlock : NbResult α ε
  | error : ε → NbResult α ε
deriving Repr, DecidableEq

/-- The `Error` enum of `serial.rs`. -/
inductive Error where
  | Framing : Error
  | Noise : Error
  | Overrun : Error
  | Parity : Error
deriving Repr, DecidableEq

/-- `UsartReadWrite::read` (serial.rs lines 206-242).  Reads SR once; decodes
the error flags in the order pe, fe, ne, ore; on an error performs the
volatile SR read followed by the volatile DR read and reports the error;
otherwise returns the data byte when rxne is set and WouldBlock when not.
The second component is the trace of volatile register accesses. -/
def usartRead (s : UsartRegs) : NbResult Nat Error × List Access :=
  let sr := s.sr
  let err : Option Error :=
    if sr.pe then some Error.Parity
    else if sr.fe then some Error.Framing
    else if sr.ne then some Error.Noise
    else if sr.ore then some Error.Overrun
    else none
  match err with
  | some e =>
      (NbResult.error e, [Access.readSR, Access.readSR, Access.readDR])
  | none =>
      if sr.rxne then
        (NbResult.ok s.dr, [Access.readSR, Access.readDR])
      else
        (NbResult.wouldBlock, [Access.readSR])

/-- `UsartReadWrite::write` (serial.rs lines 244-255).  Reads SR; when txe is
set performs one volatile write of the byte to DR and returns Ok, otherwise
returns WouldBlock.  The error type of the Rust function is `Infallible`,
modelled by the uninhabited type `Empty`. -/
def usartWrite (s : UsartRegs) (byte : Nat) : NbResult Unit Empty × List Access :=
  if s.sr.txe then
    (NbResult.ok (), [Access.readSR, Access.writeDR byte])
  else
    (NbResult.wouldBlock, [Access.readSR])

/-- `UsartReadWrite::flush` (serial.rs lines 257-265).  Reads SR; Ok when tc
is set, WouldBlock otherwise. -/
def usartFlush (s : UsartRegs) : NbResult Unit Empty × List Access :=
  if s.sr.tc then
    (NbResult.ok (), [Access.readSR])
  else
    (NbResult.wouldBlock, [Access.readSR])

/-- The `Parity` enum of `serial.rs`. -/
inductive Parity where
  | ParityNone : Parity
  | ParityEven : Parity
  | ParityOdd : Parity
deriving Repr, DecidableEq

/-- The `StopBits` enum of `serial.rs`. -/
inductive StopBits where
  | STOP1 : StopBits
  | STOP0P5 : StopBits
  | STOP2 : StopBits
  | STOP1P5 : StopBits
deriving Repr, DecidableEq

/-- The `Config` struct of `serial.rs`; `baudrate` is the wrapped `Bps` u32. -/
structure Config where
  baudrate : Nat
  parity : Parity
  stopbits : StopBits
deriving Repr, DecidableEq

/-- The stop-bit encoding computed by `Serial::init` (serial.rs lines
305-310). -/
def stopBitsCode : StopBits → Nat
  | StopBits.STOP1 => 0b00
  | StopBits.STOP0P5 => 0b01
  | StopBits.STOP2 => 0b10
  | StopBits.STOP1P5 => 0b11

/-- The (word_length, parity_control_enable, parity) triple computed by
`Serial::init` (serial.rs lines 290-294). -/
def parityBits : Parity → Bool × Bool × Bool
  | Parity.ParityNone => (false, false, false)
  | Parity.ParityEven => (true, true, false)
  | Parity.ParityOdd => (true, true, true)

/-- `Serial::init` (serial.rs lines 273-321).  The RCC reset puts the
registers at their reset values; then the baud divisor is computed as
`clock / baudrate` and asserted to be at least 16 (`none` models the panic
of a failed assertion), BRR is written, CR1 is modified with the
m/ps/pce bits, CR2 with the stop field, and finally CR1 with ue/re/te. -/
def serialInit (config : Config) (clockHz : Nat) : Option UsartRegs :=
  let s := UsartRegs.reset
  let brr := clockHz / config.baudrate
  if brr < 16 then
    none
  else
    let s := { s with brr := brr }
    let wlp := parityBits config.parity
    let s := { s with cr1 :=
      { s.cr1 with m := wlp.1, ps := wlp.2.2, pce := wlp.2.1 } }
    let s := { s with cr2 := { s.cr2 with stop := stopBitsCode config.stopbits } }
    let s := { s with cr1 := { s.cr1 with ue := true, re := true, te := true } }
    some s

/-- `Tx::listen` (serial.rs line 414-416): CR1 modify setting txeie. -/
def txListen (s : UsartRegs) : UsartRegs :=
  { s with cr1 := { s.cr1 with txeie := true } }

/-- `Tx::unlisten` (serial.rs line 418-420): CR1 modify clearing txeie. -/
def txUnlisten (s : UsartRegs) : UsartRegs :=
  { s with cr1 := { s.cr1 with txeie := false } }

/-- `Rx::listen` (serial.rs line 424-426): CR1 modify setting rxneie. -/
def rxListen (s : UsartRegs) : UsartRegs :=
  { s with cr1 := { s.cr1 with rxneie := true } }

/-- `Rx::unlisten` (serial.rs line 428-430): CR1 modify clearing rxneie. -/
def rxUnlisten (s : UsartRegs) : UsartRegs :=
  { s with cr1 := { s.cr1 with rxneie := false } }

/-- Priority level of a DMA channel (`pl` field of the channel CR). -/
inductive DmaPriority where
  | low : DmaPriority
  | medium : DmaPriority
  | high : DmaPriority
  | veryHigh : DmaPriority
deriving Repr, DecidableEq

/-- Element size of a DMA channel side (`msize`/`psize` field). -/
inductive DmaWordSize where
  | bits8 : DmaWordSize
  | bits16 : DmaWordSize
  | bits32 : DmaWordSize
deriving Repr, DecidableEq

/-- The DMA channel configuration register fields written by `serial.rs`,
plus the remaining bits collected in `others`. -/
structure DmaChCr where
  mem2mem : Bool
  pl : DmaPriority
  msize : DmaWordSize
  psize : DmaWordSize
  circ : Bool
  dir : Bool
  others : Nat
deriving Repr, DecidableEq

/-- Modelled from the spec: the DMA channel external interface (§6) — a
channel holds a peripheral address, a memory address, a transfer length,
its configuration register and an armed flag; `set_peripheral_address`,
`set_memory_address`, `set_transfer_length`, `start` and `stop` act on it
(the `dma` module of this repository is not under src/). -/
structure DmaChannel where
  periphAddr : Nat
  periphInc : Bool
  memAddr : Nat
  memInc : Bool
  transferLength : Nat
  cr : DmaChCr
  armed : Bool
deriving Repr, DecidableEq

/-- Modelled from the spec: `set_peripheral_address(addr, inc)` of the DMA
channel interface. -/
def DmaChannel.setPeripheralAddress (c : DmaChannel) (addr : Nat) (inc : Bool) :
    DmaChannel :=
  { c with periphAddr := addr, periphInc := inc }

/-- Modelled from the spec: `set_memory_address(addr, inc)` of the DMA
channel interface. -/
def DmaChannel.setMemoryAddress (c : DmaChannel) (addr : Nat) (inc : Bool) :
    DmaChannel :=
  { c with memAddr := addr, memInc := inc }

/-- Modelled from the spec: `set_transfer_length(len)` of the DMA channel
interface. -/
def DmaChannel.setTransferLength (c : DmaChannel) (len : Nat) : DmaChannel :=
  { c with transferLength := len }

/-- Modelled from the spec: `start()` arms the channel (the bus master
begins moving data autonomously). -/
def DmaChannel.start (c : DmaChannel) : DmaChannel :=
  { c with armed := true }

/-- Modelled from the spec: `stop()` deterministically halts the channel. -/
def DmaChannel.stop (c : DmaChannel) : DmaChannel :=
  { c with armed := false }

/-- The zero-sized `Rx<USART>` receive capability token. -/
inductive RxHandle where
  | mk : RxHandle
deriving Repr, DecidableEq

/-- The zero-sized `Tx<USART>` transmit capability token. -/
inductive TxHandle where
  | mk : TxHandle
deriving Repr, DecidableEq

/-- Modelled from the spec: the `RxDma` wrapper of the `dma` module — a
direction handle paired with a DMA channel (§3, DMA Transfer). -/
structure RxDmaT where
  payload : RxHandle
  channel : DmaChannel
deriving Repr, DecidableEq

/-- Modelled from the spec: the `TxDma` wrapper of the `dma` module. -/
structure TxDmaT where
  payload : TxHandle
  channel : DmaChannel
deriving Repr, DecidableEq

/-- A one-shot transfer buffer as seen through embedded_dma's
`static_read_buffer`/`static_write_buffer`: a fixed start address and an
element count in words. -/
structure OneShotBuf where
  ptr : Nat
  len : Nat
deriving Repr, DecidableEq

/-- Modelled from the spec: the `&'static mut [B; 2]` double buffer taken by
`circ_read` (§4.5) — a fixed two-element array, each element `halfWords`
words long, so its `static_write_buffer` view is `(ptr, 2 * halfWords)`. -/
structure CircBuf2 where
  ptr : Nat
  halfWords : Nat
deriving Repr, DecidableEq

/-- Modelled from the spec: the `Transfer` object returned by one-shot DMA
`read`/`write` — it owns the buffer and the DMA-capable payload. -/
structure TransferT (P : Type) where
  buffer : OneShotBuf
  payload : P
deriving Repr, DecidableEq

/-- Modelled from the spec: the `CircBuffer` returned by `circ_read` — it
owns the double buffer and the DMA-capable payload. -/
structure CircBufferT where
  buffer : CircBuf2
  payload : RxDmaT
deriving Repr, DecidableEq

/-- An observable step of the DMA teardown path, used to state the ordering
of `release`. -/
inductive DmaAction where
  | channelStop : DmaAction
  | writeCr3 : CR3 → DmaAction
deriving Repr, DecidableEq

/-- `Rx::with_dma` (serial.rs lines 570-578): a full CR3 `write` with dmar
set (every other bit takes its reset value), then wraps handle and channel
into `RxDma`. -/
def rxWithDma (rx : RxHandle) (ch : DmaChannel) (u : UsartRegs) :
    RxDmaT × UsartRegs :=
  ({ payload := rx, channel := ch },
   { u with cr3 := { CR3.reset with dmar := true } })

/-- `Tx::with_dma` (serial.rs lines 580-588): a full CR3 `write` with dmat
set. -/
def txWithDma (tx : TxHandle) (ch : DmaChannel) (u : UsartRegs) :
    TxDmaT × UsartRegs :=
  ({ payload := tx, channel := ch },
   { u with cr3 := { CR3.reset with dmat := true } })

/-- `RxDma::release` (serial.rs lines 595-603): `self.stop()` (which stops
the channel), then a full CR3 `write` with dmar cleared, then returns
`(payload, channel)`.  The action log records the order of the two
hardware-visible steps. -/
def rxDmaRelease (d : RxDmaT) (u : UsartRegs) :
    (RxHandle × DmaChannel) × UsartRegs × List DmaAction :=
  let ch := d.channel.stop
  let log : List DmaAction := [DmaAction.channelStop]
  let cr3 : CR3 := { CR3.reset with dmar := false }
  let u := { u with cr3 := cr3 }
  let log := log ++ [DmaAction.writeCr3 cr3]
  ((d.payload, ch), u, log)

/-- `TxDma::release` (serial.rs lines 611-619): `self.stop()`, then a full
CR3 `write` with dmat cleared, then returns `(payload, channel)`. -/
def txDmaRelease (d : TxDmaT) (u : UsartRegs) :
    (TxHandle × DmaChannel) × UsartRegs × List DmaAction :=
  let ch := d.channel.stop
  let log : List DmaAction := [DmaAction.channelStop]
  let cr3 : CR3 := { CR3.reset with dmat := false }
  let u := { u with cr3 := cr3 }
  let log := log ++ [DmaAction.writeCr3 cr3]
  ((d.payload, ch), u, log)

/-- `ReadDma::read` (serial.rs lines 652-677): programs peripheral address =
DR (no increment), memory address = buffer start (increment), transfer
length = buffer element count; CR modify with mem2mem clear, priority
medium, 8-bit sizes, circular off, direction clear (peripheral-to-memory);
then starts the channel and returns a `Transfer`. -/
def readDma (drAddr : Nat) (d : RxDmaT) (buf : OneShotBuf) : TransferT RxDmaT :=
  let ch := d.channel
  let ch := ch.setPeripheralAddress drAddr false
  let ch := ch.setMemoryAddress buf.ptr true
  let ch := ch.setTransferLength buf.len
  let ch := { ch with cr :=
    { ch.cr with mem2mem := false, pl := DmaPriority.medium
                 msize := DmaWordSize.bits8, psize := DmaWordSize.bits8
                 circ := false, dir := false } }
  let ch := ch.start
  { buffer := buf, payload := { d with channel := ch } }

/-- `WriteDma::write` (serial.rs lines 679-707): same programming as `read`
except direction set (memory-to-peripheral). -/
def writeDma (drAddr : Nat) (d : TxDmaT) (buf : OneShotBuf) : TransferT TxDmaT :=
  let ch := d.channel
  let ch := ch.setPeripheralAddress drAddr false
  let ch := ch.setMemoryAddress buf.ptr true
  let ch := ch.setTransferLength buf.len
  let ch := { ch with cr :=
    { ch.cr with mem2mem := false, pl := DmaPriority.medium
                 msize := DmaWordSize.bits8, psize := DmaWordSize.bits8
                 circ := false, dir := true } }
  let ch := ch.start
  { buffer := buf, payload := { d with channel := ch } }

/-- `CircReadDma::circ_read` (serial.rs lines 622-650): same programming as
`read` except circular on; the buffer is the two-element double buffer and
the transfer length is its full word count. -/
def circReadDma (drAddr : Nat) (d : RxDmaT) (buf : CircBuf2) : CircBufferT :=
  let ch := d.channel
  let ch := ch.setPeripheralAddress drAddr false
  let ch := ch.setMemoryAddress buf.ptr true
  let ch := ch.setTransferLength (2 * buf.halfWords)
  let ch := { ch with cr :=
    { ch.cr with mem2mem := false, pl := DmaPriority.medium
                 msize := DmaWordSize.bits8, psize := DmaWordSize.bits8
                 circ := true, dir := false } }
  let ch := ch.start
  { buffer := buf, payload := { d with channel := ch } }

/-! ## Theorems -/

/-- Concrete state with framing and overrun flags set, no parity flag. -/
def sampleErrState : UsartRegs :=
  { UsartRegs.reset with sr := { SR.reset with fe := true, ore := true } }

/-- Concrete state with the transmit-buffer-empty flag set. -/
def sampleTxeState : UsartRegs :=
  { UsartRegs.reset with sr := { SR.reset with txe := true } }

/-- C1: whenever an error flag is set, `read` reports the highest-priority
active error in the order Parity > Framing > Noise > Overrun, and its access
trace is the detecting SR read followed by exactly two further reads, SR then
DR, before the error is returned. -/
theorem read_error_priority_and_clear_sequence (s : UsartRegs)
    (h : s.sr.pe = true ∨ s.sr.fe = true ∨ s.sr.ne = true ∨ s.sr.ore = true) :
    (∃ e, (usartRead s).1 = NbResult.error e) ∧
    (usartRead s).2 = [Access.readSR, Access.readSR, Access.readDR] ∧
    (s.sr.pe = true → (usartRead s).1 = NbResult.error Error.Parity) ∧
    (s.sr.pe = false → s.sr.fe = true →
      (usartRead s).1 = NbResult.error Error.Framing) ∧
    (s.sr.pe = false → s.sr.fe = false → s.sr.ne = true →
      (usartRead s).1 = NbResult.error Error.Noise) ∧
    (s.sr.pe = false → s.sr.fe = false → s.sr.ne = false → s.sr.ore = true →
      (usartRead s).1 = NbResult.error Error.Overrun) := by
  cases hpe : s.sr.pe <;> cases hfe : s.sr.fe <;> cases hne : s.sr.ne <;>
    cases hore : s.sr.ore <;> simp_all [usartRead]

/-- Witness for C1: with framing and overrun flags set (parity clear), read
reports Framing and the trace is SR, SR, DR. -/
theorem read_error_priority_witness :
    (usartRead sampleErrState).1 = NbResult.error Error.Framing ∧
    (usartRead sampleErrState).2 = [Access.readSR, Access.readSR, Access.readDR] :=
  ⟨(read_error_priority_and_clear_sequence sampleErrState
      (Or.inr (Or.inl rfl))).2.2.2.1 rfl rfl,
   (read_error_priority_and_clear_sequence sampleErrState
      (Or.inr (Or.inl rfl))).2.1⟩

/-- C8: with no error flag and no rxne flag set, `read` returns WouldBlock,
its only register access is the single SR read, and in particular it neither
reads the data register nor writes any register. -/
theorem read_idle_wouldblock (s : UsartRegs)
    (hpe : s.sr.pe = false) (hfe : s.sr.fe = false) (hne : s.sr.ne = false)
    (hore : s.sr.ore = false) (hrxne : s.sr.rxne = false) :
    (usartRead s).1 = NbResult.wouldBlock ∧
    (usartRead s).2 = [Access.readSR] ∧
    Access.readDR ∉ (usartRead s).2 ∧
    (∀ b, Access.writeDR b ∉ (usartRead s).2) := by
  simp [usartRead, hpe, hfe, hne, hore, hrxne]

/-- Witness for C8: in the reset state, read returns WouldBlock with a
single SR read. -/
theorem read_idle_wouldblock_witness :
    (usartRead UsartRegs.reset).1 = NbResult.wouldBlock ∧
    (usartRead UsartRegs.reset).2 = [Access.readSR] :=
  ⟨(read_idle_wouldblock UsartRegs.reset rfl rfl rfl rfl rfl).1,
   (read_idle_wouldblock UsartRegs.reset rfl rfl rfl rfl rfl).2.1⟩

/-- C7: `write` succeeds exactly when txe is set, in which case the byte is
written once to DR; otherwise it returns WouldBlock and performs no write.
Its error type is uninhabited (`Empty`), so Ok and WouldBlock are the only
outcomes. -/
theorem write_txe_protocol (s : UsartRegs) (b : Nat) :
    (s.sr.txe = true →
      (usartWrite s b).1 = NbResult.ok () ∧
      (usartWrite s b).2 = [Access.readSR, Access.writeDR b]) ∧
    (s.sr.txe = false →
      (usartWrite s b).1 = NbResult.wouldBlock ∧
      (usartWrite s b).2 = [Access.readSR]) ∧
    ((usartWrite s b).1 = NbResult.ok () ∨
      (usartWrite s b).1 = NbResult.wouldBlock) := by
  cases htxe : s.sr.txe <;> simp [usartWrite, htxe]

/-- Witness for C7: with txe set, writing byte 65 returns Ok and the trace
is the SR read followed by the single DR write of 65. -/
theorem write_txe_witness :
    (usartWrite sampleTxeState 65).1 = NbResult.ok () ∧
    (usartWrite sampleTxeState 65).2 = [Access.readSR, Access.writeDR 65] :=
  (write_txe_protocol sampleTxeState 65).1 rfl

/-- C9: `flush` returns Ok exactly when tc is set and WouldBlock otherwise,
never an error; its only register access is the SR read, and its outcome is
independent of the txe flag that `write` tests. -/
theorem flush_tc_protocol (s : UsartRegs) :
    ((usartFlush s).1 = NbResult.ok () ↔ s.sr.tc = true) ∧
    ((usartFlush s).1 = NbResult.wouldBlock ↔ s.sr.tc = false) ∧
    ((usartFlush s).1 = NbResult.ok () ∨
      (usartFlush s).1 = NbResult.wouldBlock) ∧
    (usartFlush s).2 = [Access.readSR] ∧
    (∀ b : Bool,
      (usartFlush { s with sr := { s.sr with txe := b } }).1 =
        (usartFlush s).1) := by
  cases htc : s.sr.tc <;> simp [usartFlush, htc]

/-- C5: when `clock / baudrate >= 16` construction succeeds and the value
written to BRR is exactly the integer division; when the quotient is below
16 the assertion fires (modelled as `none`) — the divisor is never clamped
to a representable value. -/
theorem init_baud_divisor (config : Config) (clockHz : Nat) :
    (16 ≤ clockHz / config.baudrate →
      ∃ s, serialInit config clockHz = some s ∧
        s.brr = clockHz / config.baudrate) ∧
    (clockHz / config.baudrate < 16 → serialInit config clockHz = none) := by
  constructor
  · intro h
    unfold serialInit
    simp only
    rw [if_neg (by omega)]
    exact ⟨_, rfl, rfl⟩
  · intro h
    unfold serialInit
    simp only
    rw [if_pos h]

/-- Witness for C5: at clock 160000 Hz and baud rate 10000, construction
succeeds with divisor 16. -/
theorem init_baud_divisor_witness :
    ∃ s, serialInit ⟨10000, Parity.ParityNone, StopBits.STOP1⟩ 160000 = some s ∧
      s.brr = 160000 / 10000 :=
  (init_baud_divisor ⟨10000, Parity.ParityNone, StopBits.STOP1⟩ 160000).1
    (by norm_num)

/-- The register state produced by `serialInit` for an odd-parity, 2-stop-bit
configuration at divisor 16, used as a concrete witness input. -/
def sampleInitResult : UsartRegs :=
  { sr := SR.reset, dr := 0, brr := 16
    cr1 := { ue := true, re := true, te := true, m := true, ps := true
             pce := true, rxneie := false, txeie := false, idleie := false
             others := 0 }
    cr2 := { stop := 2, others := 0 }
    cr3 := CR3.reset }

/-- C6: after a successful `init`, the m bit is set iff parity is enabled,
the pce bit is set iff parity is enabled, the ps bit is set iff parity is
Odd, and the CR2 stop field carries the encoding 1↦00, 0.5↦01, 2↦10,
1.5↦11, which is injective. -/
theorem init_parity_stop_encoding (config : Config) (clockHz : Nat)
    (s : UsartRegs) (h : serialInit config clockHz = some s) :
    (s.cr1.m = true ↔ config.parity ≠ Parity.ParityNone) ∧
    (s.cr1.pce = true ↔ config.parity ≠ Parity.ParityNone) ∧
    (s.cr1.ps = true ↔ config.parity = Parity.ParityOdd) ∧
    s.cr2.stop = stopBitsCode config.stopbits ∧
    stopBitsCode StopBits.STOP1 = 0b00 ∧
    stopBitsCode StopBits.STOP0P5 = 0b01 ∧
    stopBitsCode StopBits.STOP2 = 0b10 ∧
    stopBitsCode StopBits.STOP1P5 = 0b11 ∧
    Function.Injective stopBitsCode := by
  unfold serialInit at h
  simp only at h
  split at h
  · exact absurd h (by simp)
  · obtain rfl := (Option.some.injEq _ _).mp h
    refine ⟨?_, ?_, ?_, rfl, rfl, rfl, rfl, rfl, ?_⟩
    · cases config.parity <;> simp [parityBits]
    · cases config.parity <;> simp [parityBits]
    · cases config.parity <;> simp [parityBits]
    · intro a b hab
      cases a <;> cases b <;> first
        | rfl
        | (exfalso; simp [stopBitsCode] at hab)

/-- Witness for C6: the odd-parity, 2-stop-bit configuration at divisor 16
yields ps set and stop field 0b10. -/
theorem init_parity_stop_witness :
    sampleInitResult.cr1.ps = true ∧
    sampleInitResult.cr2.stop = stopBitsCode StopBits.STOP2 :=
  ⟨(init_parity_stop_encoding ⟨10000, Parity.ParityOdd, StopBits.STOP2⟩ 160000
      sampleInitResult (by decide)).2.2.1.mpr rfl,
   (init_parity_stop_encoding ⟨10000, Parity.ParityOdd, StopBits.STOP2⟩ 160000
      sampleInitResult (by decide)).2.2.2.1⟩

/-- Agreement of two CR1 values on every field except rxneie. -/
def cr1AgreeExceptRxneie (a b : CR1) : Prop :=
  a.ue = b.ue ∧ a.re = b.re ∧ a.te = b.te ∧ a.m = b.m ∧ a.ps = b.ps ∧
  a.pce = b.pce ∧ a.txeie = b.txeie ∧ a.idleie = b.idleie ∧ a.others = b.others

/-- Agreement of two CR1 values on every field except txeie. -/
def cr1AgreeExceptTxeie (a b : CR1) : Prop :=
  a.ue = b.ue ∧ a.re = b.re ∧ a.te = b.te ∧ a.m = b.m ∧ a.ps = b.ps ∧
  a.pce = b.pce ∧ a.rxneie = b.rxneie ∧ a.idleie = b.idleie ∧ a.others = b.others

/-- Agreement of two register blocks on everything outside CR1. -/
def regsAgreeOutsideCr1 (a b : UsartRegs) : Prop :=
  a.sr = b.sr ∧ a.dr = b.dr ∧ a.brr = b.brr ∧ a.cr2 = b.cr2 ∧ a.cr3 = b.cr3

/-- C10: `Rx::listen`/`Rx::unlisten` set/clear only the rxneie bit, leaving
txeie, every other CR1 bit and every other register unchanged; symmetrically
`Tx::listen`/`Tx::unlisten` touch only the txeie bit. -/
theorem listen_unlisten_independence (s : UsartRegs) :
    ((rxListen s).cr1.rxneie = true ∧
      cr1AgreeExceptRxneie (rxListen s).cr1 s.cr1 ∧
      regsAgreeOutsideCr1 (rxListen s) s) ∧
    ((rxUnlisten s).cr1.rxneie = false ∧
      cr1AgreeExceptRxneie (rxUnlisten s).cr1 s.cr1 ∧
      regsAgreeOutsideCr1 (rxUnlisten s) s) ∧
    ((txListen s).cr1.txeie = true ∧
      cr1AgreeExceptTxeie (txListen s).cr1 s.cr1 ∧
      regsAgreeOutsideCr1 (txListen s) s) ∧
    ((txUnlisten s).cr1.txeie = false ∧
      cr1AgreeExceptTxeie (txUnlisten s).cr1 s.cr1 ∧
      regsAgreeOutsideCr1 (txUnlisten s) s) := by
  simp [rxListen, rxUnlisten, txListen, txUnlisten,
    cr1AgreeExceptRxneie, cr1AgreeExceptTxeie, regsAgreeOutsideCr1]

/-- The channel state programmed by a one-shot DMA `read`. -/
def readDmaChannel (drAddr : Nat) (d : RxDmaT) (buf : OneShotBuf) : DmaChannel :=
  (readDma drAddr d buf).payload.channel

/-- The channel state programmed by a one-shot DMA `write`. -/
def writeDmaChannel (drAddr : Nat) (d : TxDmaT) (buf : OneShotBuf) : DmaChannel :=
  (writeDma drAddr d buf).payload.channel

/-- The channel state programmed by `circ_read`. -/
def circReadDmaChannel (drAddr : Nat) (d : RxDmaT) (buf : CircBuf2) : DmaChannel :=
  (circReadDma drAddr d buf).payload.channel

/-- C2: one-shot `read` programs transfer length = buffer element count,
direction clear (peripheral-to-memory) and circular off; `write` programs
direction set (memory-to-peripheral) and circular off; `circ_read` programs
the same configuration fields as `read` except circular on, over the
two-element double buffer; all three use 8-bit element size on both sides
and medium priority, with the peripheral side fixed at the data register
address (no increment) and the memory side at the buffer start
(incrementing). -/
theorem dma_transfer_programming (drAddr : Nat) (rd : RxDmaT) (td : TxDmaT)
    (buf bufw : OneShotBuf) (cbuf : CircBuf2) :
    ((readDmaChannel drAddr rd buf).transferLength = buf.len ∧
      (readDmaChannel drAddr rd buf).cr.dir = false ∧
      (readDmaChannel drAddr rd buf).cr.circ = false ∧
      (readDmaChannel drAddr rd buf).cr.pl = DmaPriority.medium ∧
      (readDmaChannel drAddr rd buf).cr.msize = DmaWordSize.bits8 ∧
      (readDmaChannel drAddr rd buf).cr.psize = DmaWordSize.bits8 ∧
      (readDmaChannel drAddr rd buf).cr.mem2mem = false ∧
      (readDmaChannel drAddr rd buf).periphAddr = drAddr ∧
      (readDmaChannel drAddr rd buf).periphInc = false ∧
      (readDmaChannel drAddr rd buf).memAddr = buf.ptr ∧
      (readDmaChannel drAddr rd buf).memInc = true) ∧
    ((writeDmaChannel drAddr td bufw).transferLength = bufw.len ∧
      (writeDmaChannel drAddr td bufw).cr.dir = true ∧
      (writeDmaChannel drAddr td bufw).cr.circ = false ∧
      (writeDmaChannel drAddr td bufw).cr.pl = DmaPriority.medium ∧
      (writeDmaChannel drAddr td bufw).cr.msize = DmaWordSize.bits8 ∧
      (writeDmaChannel drAddr td bufw).cr.psize = DmaWordSize.bits8 ∧
      (writeDmaChannel drAddr td bufw).cr.mem2mem = false ∧
      (writeDmaChannel drAddr td bufw).periphAddr = drAddr ∧
      (writeDmaChannel drAddr td bufw).periphInc = false ∧
      (writeDmaChannel drAddr td bufw).memAddr = bufw.ptr ∧
      (writeDmaChannel drAddr td bufw).memInc = true) ∧
    ((circReadDmaChannel drAddr rd cbuf).cr =
        { (readDmaChannel drAddr rd buf).cr with circ := true } ∧
      (circReadDmaChannel drAddr rd cbuf).transferLength = 2 * cbuf.halfWords ∧
      (circReadDmaChannel drAddr rd cbuf).periphAddr = drAddr ∧
      (circReadDmaChannel drAddr rd cbuf).periphInc = false ∧
      (circReadDmaChannel drAddr rd cbuf).memAddr = cbuf.ptr ∧
      (circReadDmaChannel drAddr rd cbuf).memInc = true) := by
  simp [readDmaChannel, writeDmaChannel, circReadDmaChannel, readDma,
    writeDma, circReadDma, DmaChannel.setPeripheralAddress,
    DmaChannel.setMemoryAddress, DmaChannel.setTransferLength,
    DmaChannel.start]

/-- C3: `release` on an RxDma or TxDma emits the channel stop strictly
before the CR3 write that clears the DMA-request-enable bit, and returns
the direction handle together with the (stopped) channel. -/
theorem release_stop_before_disable (rd : RxDmaT) (td : TxDmaT)
    (u v : UsartRegs) :
    (rxDmaRelease rd u).2.2 =
      [DmaAction.channelStop,
       DmaAction.writeCr3 { dmar := false, dmat := false, others := 0 }] ∧
    (rxDmaRelease rd u).1 = (rd.payload, rd.channel.stop) ∧
    (txDmaRelease td v).2.2 =
      [DmaAction.channelStop,
       DmaAction.writeCr3 { dmar := false, dmat := false, others := 0 }] ∧
    (txDmaRelease td v).1 = (td.payload, td.channel.stop) ∧
    List.indexOf DmaAction.channelStop ((rxDmaRelease rd u).2.2) <
      List.indexOf
        (DmaAction.writeCr3 { dmar := false, dmat := false, others := 0 })
        ((rxDmaRelease rd u).2.2) ∧
    List.indexOf DmaAction.channelStop ((txDmaRelease td v).2.2) <
      List.indexOf
        (DmaAction.writeCr3 { dmar := false, dmat := false, others := 0 })
        ((txDmaRelease td v).2.2) := by
  have hr : (rxDmaRelease rd u).2.2 =
      [DmaAction.channelStop,
       DmaAction.writeCr3 { dmar := false, dmat := false, others := 0 }] := rfl
  have ht : (txDmaRelease td v).2.2 =
      [DmaAction.channelStop,
       DmaAction.writeCr3 { dmar := false, dmat := false, others := 0 }] := rfl
  refine ⟨hr, rfl, ht, rfl, ?_, ?_⟩
  · rw [hr]; decide
  · rw [ht]; decide

/-- C4: `with_dma` and `release` write the whole CR3 register: after
`Rx::with_dma` CR3 is exactly the reset value with only dmar set (dmat and
every other bit cleared, whatever they were before — shown explicitly for a
prior state with dmat set), after `Tx::with_dma` only dmat is set, and
after either `release` every CR3 bit is cleared. -/
theorem with_dma_release_cr3_full_write (rx : RxHandle) (tx : TxHandle)
    (ch cht : DmaChannel) (u1 u2 u3 u4 : UsartRegs)
    (rd : RxDmaT) (td : TxDmaT) :
    (rxWithDma rx ch u1).2.cr3 = { dmar := true, dmat := false, others := 0 } ∧
    (rxWithDma rx ch
      { u1 with cr3 := { u1.cr3 with dmat := true } }).2.cr3.dmat = false ∧
    (txWithDma tx cht u2).2.cr3 = { dmar := false, dmat := true, others := 0 } ∧
    (txWithDma tx cht
      { u2 with cr3 := { u2.cr3 with dmar := true } }).2.cr3.dmar = false ∧
    (rxDmaRelease rd u3).2.1.cr3 =
      { dmar := false, dmat := false, others := 0 } ∧
    (txDmaRelease td u4).2.1.cr3 =
      { dmar := false, dmat := false, others := 0 } := by
  exact ⟨rfl, rfl, rfl, rfl, rfl, rfl⟩

end Stm32Serial
